import Mathlib

/-!
Shallow embedding of `src/mcp3008.rs` (driver for the MCP3008 8-channel
10-bit ADC over SPI), together with theorems checking the design
specification against it.

Modelling conventions:
* Machine integers (`u8`, `u16`, `u32`) are `Nat`; all arithmetic in the
  source stays far below the overflow bound, which the theorems make
  explicit where it matters.
* `rpi_lfa::Volt` wraps `f64`; it is modelled over `ℚ` (the scaling
  arithmetic `data * v_ref / 1024.0` is exact in this model).
* The `mpsc` channel endpoints are opaque to the session layer; an
  `Inner` value is an abstract identity for the channel pair.  The
  outcome of each non-blocking channel operation (`try_send`,
  `try_recv`) is passed to the embedded function as an explicit input,
  so every branch of the Rust code appears as a branch on that input.
* `unreachable!()` is modelled as a distinct `panicked` outcome.
* The worker thread `spi_worker` is embedded as a pure trace function:
  it receives the outcome of opening the bus and the list of requests
  (each paired with its bus-transaction outcome) and returns the list
  of events it sends, in order.
-/

namespace Mcp3008

/-- Abstract stand-in for `std::io::Error` (payload of thread-spawn failures). -/
structure IoError where
  code : Nat
deriving DecidableEq, Repr

/-- Abstract stand-in for `rppal::spi::Error` (payload of bus failures). -/
structure SpiError where
  code : Nat
deriving DecidableEq, Repr

/-- Model of `rpi_lfa::Volt(f64)`, over exact rationals. -/
structure Volt where
  val : ℚ
deriving DecidableEq, Repr

/-- The `Channel` enum: the eight analog input pins of the chip. -/
inductive Channel where
  | Ch0
  | Ch1
  | Ch2
  | Ch3
  | Ch4
  | Ch5
  | Ch6
  | Ch7
deriving DecidableEq, Repr

/-- The `Vdd` enum: supported supply rails. -/
inductive Vdd where
  | Positive3v3
  | Positive5v
deriving DecidableEq, Repr

/-- The `Vref` enum: reference voltage, either equal to the rail or explicit. -/
inductive Vref where
  | EqualToVdd
  | Other (voltage : Volt)
deriving DecidableEq, Repr

/-- The `Params` struct passed to `Session::new`. -/
structure Params where
  voltage_drain : Vdd
  voltage_ref : Vref
deriving DecidableEq, Repr

/-- The `Error` enum.  The constructor `SpiInitFailed` models the Rust
variant `Error::SpiInitialize(rppal::spi::Error)`. -/
inductive Error where
  | SpiThreadSpawn (e : IoError)
  | SpiThreadLost
  | SpiInitFailed (e : SpiError)
  | SpiTransferSegments (e : SpiError)
deriving DecidableEq, Repr

/-- The `Event` enum sent from the worker to the session handle. -/
inductive Event where
  | SpiInitialized
  | ChannelRead (channel : Channel) (value : Volt)
  | Error (e : Error)
deriving DecidableEq, Repr

/-- Abstract identity of the `Inner` struct (the `request_tx`/`event_rx`
channel endpoints shared by all session states). -/
structure Inner where
  id : Nat
deriving DecidableEq, Repr

/-- Outcome of `mpsc::Receiver::try_recv` on the event channel. -/
inductive TryRecvResult where
  | received (ev : Event)
  | empty
  | disconnected
deriving DecidableEq, Repr

/-- Outcome of `mpsc::SyncSender::try_send` on the request channel. -/
inductive TrySendResult where
  | sent
  | full
  | disconnected
deriving DecidableEq, Repr

/-- Result of a session-layer operation: the Rust `Result<A, Error>`,
with a separate outcome for branches that are `unreachable!()`. -/
inductive Outcome (α : Type) where
  | ok (val : α)
  | err (e : Error)
  | panicked
deriving DecidableEq, Repr

/-- Clock frequency derived in `Session::new` from the supply rail
(`let hz = match params.voltage_drain { ... }`). -/
def sessionHz (params : Params) : Nat :=
  match params.voltage_drain with
  | .Positive3v3 => 1350000
  | .Positive5v => 3600000

/-- Reference voltage resolved in `Session::new`
(`let v_ref = match params.voltage_ref { ... }`). -/
def sessionVref (params : Params) : Volt :=
  match params.voltage_ref with
  | .EqualToVdd =>
    match params.voltage_drain with
    | .Positive3v3 => ⟨3.3⟩
    | .Positive5v => ⟨5.0⟩
  | .Other voltage => voltage

/-- The `Initializing` session state. -/
structure Initializing where
  inner : Inner
deriving DecidableEq, Repr

/-- The `Ready` session state. -/
structure Ready where
  inner : Inner
deriving DecidableEq, Repr

/-- The `ProbingState` enum: request not yet sent, or awaiting the reply. -/
inductive ProbingState where
  | Request (channel : Channel)
  | WaitingReply
deriving DecidableEq, Repr

/-- The `Probing` session state. -/
structure Probing where
  state : ProbingState
  inner : Inner
deriving DecidableEq, Repr

/-- The `InitializingOp` enum returned by `Initializing::probe`. -/
inductive InitializingOp where
  | Idle (st : Initializing)
  | Ready (st : Ready)
deriving DecidableEq, Repr

/-- The `ProbingOp` enum returned by `Probing::poll`. -/
inductive ProbingOp where
  | Idle (st : Probing)
  | Done (channel : Channel) (value : Volt) (ready : Ready)
deriving DecidableEq, Repr

/-- Embedding of `Initializing::probe`: the outcome of the non-blocking
receive on the event channel is the explicit input `recv`. -/
def Initializing.probe (self : Initializing) (recv : TryRecvResult) :
    Outcome InitializingOp :=
  match recv with
  | .received .SpiInitialized => .ok (.Ready ⟨self.inner⟩)
  | .received (.ChannelRead _ _) => .panicked
  | .received (.Error error) => .err error
  | .empty => .ok (.Idle self)
  | .disconnected => .err .SpiThreadLost

/-- Embedding of `Ready::probe_channel`: a pure, total constructor of a
`Probing` handle; in the source it performs no channel operation. -/
def Ready.probe_channel (self : Ready) (channel : Channel) : Probing :=
  ⟨.Request channel, self.inner⟩

/-- Phase 2 of `Probing::poll` (the `ProbingState::WaitingReply` arm):
the non-blocking receive on the event channel. -/
def pollWaitingReply (inner : Inner) (recv : TryRecvResult) :
    Outcome ProbingOp :=
  match recv with
  | .received .SpiInitialized => .panicked
  | .received (.ChannelRead channel value) => .ok (.Done channel value ⟨inner⟩)
  | .received (.Error error) => .err error
  | .empty => .ok (.Idle ⟨.WaitingReply, inner⟩)
  | .disconnected => .err .SpiThreadLost

/-- Embedding of `Probing::poll`.  The source runs a loop whose only
non-returning branch replaces `Request` by `WaitingReply`; here the loop
is unrolled (theorem `C10_poll_terminates` proves this agrees with the
direct loop embedding `pollIter`).  The outcomes of `try_send` and
`try_recv` are the explicit inputs `send` and `recv`. -/
def Probing.poll (self : Probing) (send : TrySendResult)
    (recv : TryRecvResult) : Outcome ProbingOp :=
  match self.state with
  | .Request channel =>
    match send with
    | .sent => pollWaitingReply self.inner recv
    | .full => .ok (.Idle ⟨.Request channel, self.inner⟩)
    | .disconnected => .err .SpiThreadLost
  | .WaitingReply => pollWaitingReply self.inner recv

/-- One iteration of the `loop` in `Probing::poll` either returns a
value or continues with a new `ProbingState`. -/
inductive LoopStep where
  | ret (r : Outcome ProbingOp)
  | next (st : ProbingState)
deriving DecidableEq, Repr

/-- The body of the `loop` in `Probing::poll`, translated branch by
branch from the source. -/
def pollBody (st : ProbingState) (inner : Inner) (send : TrySendResult)
    (recv : TryRecvResult) : LoopStep :=
  match st with
  | .Request channel =>
    match send with
    | .sent => .next .WaitingReply
    | .full => .ret (.ok (.Idle ⟨.Request channel, inner⟩))
    | .disconnected => .ret (.err .SpiThreadLost)
  | .WaitingReply => .ret (pollWaitingReply inner recv)

/-- Fueled iteration of `pollBody`: the direct embedding of the `loop`
in `Probing::poll`, returning `none` when the fuel runs out. -/
def pollIter : Nat → ProbingState → Inner → TrySendResult → TryRecvResult →
    Option (Outcome ProbingOp)
  | 0, _, _, _, _ => none
  | n + 1, st, inner, send, recv =>
    match pollBody st inner send recv with
    | .ret r => some r
    | .next st2 => pollIter n st2 inner send recv

/-- The 3-byte response buffer captured by `transfer_segments`. -/
structure Buffer3 where
  b0 : Nat
  b1 : Nat
  b2 : Nat
deriving DecidableEq, Repr

/-- Outcome of `spi.transfer_segments` for one request. -/
inductive TransferResult where
  | ok (buf : Buffer3)
  | err (e : SpiError)
deriving DecidableEq, Repr

/-- Outcome of `Spi::new` at worker startup. -/
inductive InitResult where
  | ok
  | fail (e : SpiError)
deriving DecidableEq, Repr

/-- The `channel_value` match inside `spi_worker_loop`. -/
def channelValue : Channel → Nat
  | .Ch0 => 0
  | .Ch1 => 1
  | .Ch2 => 2
  | .Ch3 => 3
  | .Ch4 => 4
  | .Ch5 => 5
  | .Ch6 => 6
  | .Ch7 => 7

/-- The 3-byte command frame written by `spi_worker_loop`:
`[0b00000001, 0b10000000 | (channel_value << 4), 0b00000000]`. -/
def commandFrame (channel : Channel) : List Nat :=
  [0b00000001, 0b10000000 ||| (channelValue channel <<< 4), 0b00000000]

/-- Response decoding in `spi_worker_loop`:
`((buffer[1] & 0b00000011) as u16) << 8 | (buffer[2] as u16)`. -/
def decode (b1 b2 : Nat) : Nat :=
  ((b1 &&& 0b00000011) <<< 8) ||| b2

/-- Sample-to-voltage scaling in `spi_worker_loop`:
`data as f64 * v_ref.0 / 1024.0`, over exact rationals. -/
def sampleVolt (data : Nat) (v_ref : ℚ) : ℚ :=
  (data : ℚ) * v_ref / 1024

/-- Handling of one `Request::ProbeChannel` in `spi_worker_loop`: on a
successful transaction the worker sends `ChannelRead` echoing the
requested channel; on failure the loop returns `Err(SpiTransferSegments)`. -/
def workerHandleRequest (v_ref : ℚ) (channel : Channel)
    (t : TransferResult) : Except Error Event :=
  match t with
  | .ok buf => .ok (.ChannelRead channel ⟨sampleVolt (decode buf.b1 buf.b2) v_ref⟩)
  | .err e => .error (.SpiTransferSegments e)

/-- The request loop of `spi_worker_loop`: given the requests the worker
receives (each with its transaction outcome; the list ends when the
request channel disconnects), returns the events sent inside the loop
and the error the loop returns, if any.  On the first failed transaction
the loop stops; the remaining requests are never received. -/
def spiWorkerLoopRun (v_ref : ℚ) :
    List (Channel × TransferResult) → List Event × Option Error
  | [] => ([], none)
  | (channel, t) :: rest =>
    match workerHandleRequest v_ref channel t with
    | .ok ev =>
      (ev :: (spiWorkerLoopRun v_ref rest).1, (spiWorkerLoopRun v_ref rest).2)
    | .error e => ([], some e)

/-- The full event trace of `spi_worker`: if `Spi::new` fails, the only
event is the terminal `Error(SpiInitialize ...)`; otherwise
`SpiInitialized` is sent first, then the loop events, then the terminal
`Error` event if the loop returned one. -/
def spiWorker (v_ref : ℚ) (init : InitResult)
    (reqs : List (Channel × TransferResult)) : List Event :=
  match init with
  | .fail e => [.Error (.SpiInitFailed e)]
  | .ok =>
    .SpiInitialized ::
      (spiWorkerLoopRun v_ref reqs).1 ++
        (match (spiWorkerLoopRun v_ref reqs).2 with
         | some e => [.Error e]
         | none => [])

/-- Recognizer for `ChannelRead` events. -/
def isChannelRead : Event → Bool
  | .ChannelRead _ _ => true
  | _ => false

/-- The channel reported by an event, when it reports one. -/
def Event.channelOf : Event → Option Channel
  | .ChannelRead channel _ => some channel
  | _ => none

/-- Claim C1: for every channel index c in [0,7], the three-byte command
frame written on the bus for a probe of channel c is exactly
`[0b00000001, 0b10000000 | (c << 4), 0b00000000]`, stated here in the
arithmetic form `[1, 128 + 16 * c, 0]`; in particular for channel 3 the
second byte is `0b1011_0000`. -/
theorem C1_command_frame :
    (∀ c : Channel, commandFrame c = [1, 128 + 16 * channelValue c, 0]) ∧
    commandFrame Channel.Ch3 = [0b00000001, 0b10110000, 0b00000000] := by
  refine ⟨fun c => ?_, by decide⟩
  cases c <;> decide

/-- Claim C2: for every 3-byte response buffer whose bytes are `u8`
values, the decoded sample is the low 2 bits of the second response byte
as the high bits and all 8 bits of the third byte as the low bits, i.e.
`(b1 % 4) * 256 + b2`, which is a 10-bit value. -/
theorem C2_decode (b1 b2 : Nat) (h : b2 < 256) :
    decode b1 b2 = (b1 % 4) * 256 + b2 ∧ decode b1 b2 < 1024 := by
  have hand : b1 &&& 0b00000011 = b1 % 4 := by
    simpa using Nat.and_pow_two_sub_one_eq_mod b1 2
  have h2 : (2 : Nat) ^ 8 = 256 := by norm_num
  have key : decode b1 b2 = (b1 % 4) * 256 + b2 := by
    unfold decode
    rw [hand, Nat.shiftLeft_eq]
    calc (b1 % 4) * 2 ^ 8 ||| b2
        = 2 ^ 8 * (b1 % 4) ||| b2 := by rw [Nat.mul_comm]
      _ = 2 ^ 8 * (b1 % 4) + b2 :=
          (Nat.mul_add_lt_is_or (by simpa [h2] using h) _).symm
      _ = (b1 % 4) * 256 + b2 := by rw [h2, Nat.mul_comm]
  refine ⟨key, ?_⟩
  rw [key]
  omega

/-- Witness for C2 at the concrete buffer bytes b1 = 255, b2 = 171. -/
theorem C2_decode_witness :
    171 < 256 ∧ (decode 255 171 = (255 % 4) * 256 + 171 ∧ decode 255 171 < 1024) :=
  ⟨by decide, C2_decode 255 171 (by decide)⟩

/-- Counterexample for C3: at reference voltage 1, sample 1023 maps to
1023/1024, which differs from the reference voltage by 1/1024 — one full
code step, far beyond any floating-point tolerance (compare 1/2^40). -/
theorem C3_scaling_counterexample :
    sampleVolt 1023 1 ≠ 1 ∧ 1 - sampleVolt 1023 1 = 1 / 1024 ∧
    (1 : ℚ) / 1024 > 1 / 2 ^ 40 := by
  refine ⟨?_, ?_, by norm_num⟩ <;> norm_num [sampleVolt]

/-- Claim C3 as amended: the scaling is `sample * v_ref / 1024`; sample
0 maps to 0; sample 1023 maps to `v_ref - v_ref / 1024` (one code step
below the reference voltage, not the reference voltage itself); the
mapping is monotone for nonnegative `v_ref` and antitone for nonpositive
`v_ref`. -/
theorem C3_scaling_amended (v_ref : ℚ) :
    sampleVolt 0 v_ref = 0 ∧
    sampleVolt 1023 v_ref = v_ref - v_ref / 1024 ∧
    (0 ≤ v_ref → Monotone fun s : ℕ => sampleVolt s v_ref) ∧
    (v_ref ≤ 0 → Antitone fun s : ℕ => sampleVolt s v_ref) := by
  refine ⟨by simp [sampleVolt], by unfold sampleVolt; push_cast; ring, ?_, ?_⟩
  · intro hv a b hab
    have hc : (a : ℚ) ≤ (b : ℚ) := Nat.cast_le.mpr hab
    have h1 : (a : ℚ) * v_ref ≤ (b : ℚ) * v_ref :=
      mul_le_mul_of_nonneg_right hc hv
    exact (div_le_div_iff_of_pos_right (by norm_num)).mpr h1
  · intro hv a b hab
    have hc : (a : ℚ) ≤ (b : ℚ) := Nat.cast_le.mpr hab
    have h1 : (b : ℚ) * v_ref ≤ (a : ℚ) * v_ref :=
      mul_le_mul_of_nonpos_right hc hv
    exact (div_le_div_iff_of_pos_right (by norm_num)).mpr h1

/-- Witness for C3 as amended, at reference voltage 1. -/
theorem C3_scaling_amended_witness :
    (0 : ℚ) ≤ 1 ∧ Monotone fun s : ℕ => sampleVolt s 1 :=
  ⟨by norm_num, (C3_scaling_amended 1).2.2.1 (by norm_num)⟩

/-- Claim C4: session construction derives the bus clock and the default
reference voltage from the supply rail — 3.3 V rail gives a 1.35 MHz
clock and a 3.3 V default reference, 5 V rail gives a 3.6 MHz clock and
a 5.0 V default reference — and an explicit `Vref::Other` override is
used unchanged regardless of the rail. -/
theorem C4_session_params :
    (∀ vr, sessionHz ⟨Vdd.Positive3v3, vr⟩ = 1350000) ∧
    (∀ vr, sessionHz ⟨Vdd.Positive5v, vr⟩ = 3600000) ∧
    (sessionVref ⟨Vdd.Positive3v3, Vref.EqualToVdd⟩).val = 33 / 10 ∧
    (sessionVref ⟨Vdd.Positive5v, Vref.EqualToVdd⟩).val = 5 ∧
    (∀ vd v, sessionVref ⟨vd, Vref.Other v⟩ = v) := by
  refine ⟨fun vr => rfl, fun vr => rfl, ?_, ?_, fun vd v => rfl⟩ <;>
    norm_num [sessionVref]

/-- Claim C5: `Initializing::probe` by cases on the non-blocking receive
from the event channel — `SpiInitialized` yields a `Ready` handle built
from the same `Inner`; `Error(e)` yields `Err(e)`; an empty channel
yields the same `Initializing` handle unchanged; a disconnected channel
yields `Err(SpiThreadLost)`. -/
theorem C5_initializing_probe (self : Initializing) :
    Initializing.probe self (.received Event.SpiInitialized) =
      .ok (.Ready ⟨self.inner⟩) ∧
    (∀ e, Initializing.probe self (.received (Event.Error e)) = .err e) ∧
    Initializing.probe self .empty = .ok (.Idle self) ∧
    Initializing.probe self .disconnected = .err Error.SpiThreadLost :=
  ⟨rfl, fun _ => rfl, rfl, rfl⟩

/-- Claim C6: for a `Probing` handle whose request has not yet been sent,
a successful `try_send` falls through to the non-blocking receive in the
same `poll` call (in particular a pending `ChannelRead` is returned as
`Done` in that same call, not `Idle` first); a full request channel
yields `Idle` with the request still pending (state still `Request`);
a disconnected request channel yields `Err(SpiThreadLost)`. -/
theorem C6_probing_poll (channel : Channel) (inner : Inner)
    (recv : TryRecvResult) :
    Probing.poll ⟨.Request channel, inner⟩ .sent recv =
      pollWaitingReply inner recv ∧
    (∀ ch v, Probing.poll ⟨.Request channel, inner⟩ .sent
      (.received (.ChannelRead ch v)) = .ok (.Done ch v ⟨inner⟩)) ∧
    Probing.poll ⟨.Request channel, inner⟩ .full recv =
      .ok (.Idle ⟨.Request channel, inner⟩) ∧
    Probing.poll ⟨.Request channel, inner⟩ .disconnected recv =
      .err Error.SpiThreadLost :=
  ⟨rfl, fun _ _ => rfl, rfl, rfl⟩

/-- Claim C7: a `Probing` handle created by `probe_channel(c)` carries
`c` in its `Request` state, and every `ChannelRead` event the worker
produces for a request on channel `c` reports that same channel `c`. -/
theorem C7_probing_channel (r : Ready) (channel : Channel) :
    (Ready.probe_channel r channel).state = ProbingState.Request channel ∧
    (∀ v_ref t ev, workerHandleRequest v_ref channel t = Except.ok ev →
      Event.channelOf ev = some channel) := by
  refine ⟨rfl, fun v_ref t ev h => ?_⟩
  cases t with
  | ok buf =>
    simp only [workerHandleRequest, Except.ok.injEq] at h
    rw [← h]
    rfl
  | err e => simp [workerHandleRequest] at h

/-- Witness for C7 on channel 3, with an all-zero response buffer. -/
theorem C7_probing_channel_witness :
    (Ready.probe_channel ⟨⟨0⟩⟩ Channel.Ch3).state =
      ProbingState.Request Channel.Ch3 ∧
    Event.channelOf (Event.ChannelRead Channel.Ch3
      ⟨sampleVolt (decode 0 0) 1⟩) = some Channel.Ch3 :=
  ⟨(C7_probing_channel ⟨⟨0⟩⟩ Channel.Ch3).1,
   (C7_probing_channel ⟨⟨0⟩⟩ Channel.Ch3).2 1 (.ok ⟨0, 0, 0⟩) _ rfl⟩

/-- Helper for C8: the events sent inside the worker's request loop are
all `ChannelRead`, and the loop's returned error, when present, is
`SpiTransferSegments`. -/
theorem spiWorkerLoopRun_shape (v_ref : ℚ)
    (reqs : List (Channel × TransferResult)) :
    (spiWorkerLoopRun v_ref reqs).1.all isChannelRead = true ∧
    ((spiWorkerLoopRun v_ref reqs).2 = none ∨
      ∃ e, (spiWorkerLoopRun v_ref reqs).2 =
        some (Error.SpiTransferSegments e)) := by
  induction reqs with
  | nil => exact ⟨rfl, Or.inl rfl⟩
  | cons head rest ih =>
    obtain ⟨channel, t⟩ := head
    cases t with
    | ok buf =>
      refine ⟨?_, ?_⟩
      · simpa [spiWorkerLoopRun, workerHandleRequest, isChannelRead]
          using ih.1
      · simpa [spiWorkerLoopRun, workerHandleRequest] using ih.2
    | err e =>
      exact ⟨rfl, Or.inr ⟨e, rfl⟩⟩

/-- Recognizer for requests whose bus transaction succeeds. -/
def transferOk : Channel × TransferResult → Bool
  | (_, .ok _) => true
  | (_, .err _) => false

/-- All requests in the list have successful bus transactions. -/
def allOk (reqs : List (Channel × TransferResult)) : Bool :=
  reqs.all transferOk

/-- Helper for C8: a failed transaction stops the worker's request loop —
after a prefix of successful transactions, a failing request makes the
loop return `Err(SpiTransferSegments e)`, having sent exactly the
prefix's events; the requests after the failure are never received. -/
theorem spiWorkerLoopRun_append_err (v_ref : ℚ)
    (good : List (Channel × TransferResult)) (channel : Channel)
    (e : SpiError) (rest : List (Channel × TransferResult))
    (h : allOk good = true) :
    spiWorkerLoopRun v_ref (good ++ (channel, .err e) :: rest) =
      ((spiWorkerLoopRun v_ref good).1,
        some (Error.SpiTransferSegments e)) := by
  induction good with
  | nil => rfl
  | cons head g ih =>
    obtain ⟨c0, t0⟩ := head
    rw [allOk, List.all_cons, Bool.and_eq_true] at h
    cases t0 with
    | ok buf =>
      have hg : allOk g = true := h.2
      simp [spiWorkerLoopRun, workerHandleRequest, ih hg]
    | err e0 => simp [transferOk] at h

/-- Claim C8: the worker's event stream is — on an initialization
failure, the single terminal `Error(SpiInitialize ...)` event with no
`SpiInitialized`; on a successful initialization, one `SpiInitialized`
first, then only `ChannelRead` events, terminated either by normal
shutdown (empty tail) or by exactly one terminal
`Error(SpiTransferSegments ...)` event.  In particular (third clause),
whenever a transaction fails after a prefix of successful ones, the
trace is exactly `SpiInitialized`, then the prefix's `ChannelRead`
events, then the single terminal `Error(SpiTransferSegments e)` event —
independent of the requests after the failure, which the exited worker
never receives. -/
theorem C8_worker_event_stream (v_ref : ℚ) :
    (∀ e reqs, spiWorker v_ref (.fail e) reqs =
      [Event.Error (Error.SpiInitFailed e)]) ∧
    (∀ reqs : List (Channel × TransferResult), ∃ reads tail,
      spiWorker v_ref .ok reqs = Event.SpiInitialized :: (reads ++ tail) ∧
      reads.all isChannelRead = true ∧
      (tail = [] ∨
        ∃ e, tail = [Event.Error (Error.SpiTransferSegments e)])) ∧
    (∀ good channel e rest, allOk good = true →
      spiWorker v_ref .ok (good ++ (channel, .err e) :: rest) =
        Event.SpiInitialized :: (spiWorkerLoopRun v_ref good).1 ++
          [Event.Error (Error.SpiTransferSegments e)] ∧
      (spiWorkerLoopRun v_ref good).1.all isChannelRead = true) := by
  refine ⟨fun _ _ => rfl, fun reqs => ?_, fun good channel e rest hgood => ?_⟩
  · refine ⟨(spiWorkerLoopRun v_ref reqs).1,
      (match (spiWorkerLoopRun v_ref reqs).2 with
       | some e => [Event.Error e]
       | none => []),
      rfl, (spiWorkerLoopRun_shape v_ref reqs).1, ?_⟩
    rcases (spiWorkerLoopRun_shape v_ref reqs).2 with h | ⟨e, h⟩
    · left
      rw [h]
    · right
      exact ⟨e, by rw [h]⟩
  · refine ⟨?_, (spiWorkerLoopRun_shape v_ref good).1⟩
    have hrun := spiWorkerLoopRun_append_err v_ref good channel e rest hgood
    simp [spiWorker, hrun]

/-- Witness for C8's transaction-failure clause: one successful read on
channel 0, then a failing transfer on channel 3 — the trace ends in the
single terminal `Error(SpiTransferSegments ...)` event. -/
theorem C8_worker_event_stream_witness :
    allOk [(Channel.Ch0, TransferResult.ok ⟨0, 0, 0⟩)] = true ∧
    spiWorker 1 .ok
        [(Channel.Ch0, TransferResult.ok ⟨0, 0, 0⟩),
         (Channel.Ch3, TransferResult.err ⟨7⟩)] =
      Event.SpiInitialized ::
        (spiWorkerLoopRun 1 [(Channel.Ch0, TransferResult.ok ⟨0, 0, 0⟩)]).1 ++
          [Event.Error (Error.SpiTransferSegments ⟨7⟩)] :=
  ⟨by decide,
   ((C8_worker_event_stream 1).2.2 [(Channel.Ch0, TransferResult.ok ⟨0, 0, 0⟩)]
      Channel.Ch3 ⟨7⟩ [] (by decide)).1⟩

/-- Claim C9: `Ready::probe_channel` is a pure, total, synchronous
constructor — for every `Ready` handle and channel it returns the
`Probing` handle whose state is `Request channel` (the request is not
yet sent; the send happens on the first `poll`) and whose `Inner` is the
handle's own `Inner`, unchanged; it consults nothing else and performs
no channel operation (its embedding takes no channel-outcome input). -/
theorem C9_probe_channel_pure (r : Ready) (channel : Channel) :
    Ready.probe_channel r channel = ⟨ProbingState.Request channel, r.inner⟩ :=
  rfl

/-- Claim C10: the loop inside `Probing::poll` always terminates within
two iterations — with fuel 2, iterating the loop body yields exactly the
unrolled `poll` result for every state and every channel outcome; every
branch of the body from a `Request` state either returns or continues
with `WaitingReply`, and from `WaitingReply` every branch returns. -/
theorem C10_poll_terminates (st : ProbingState) (inner : Inner)
    (send : TrySendResult) (recv : TryRecvResult) :
    pollIter 2 st inner send recv =
      some (Probing.poll ⟨st, inner⟩ send recv) ∧
    (∀ channel, pollBody (.Request channel) inner send recv =
        .next ProbingState.WaitingReply ∨
      ∃ r, pollBody (.Request channel) inner send recv = .ret r) ∧
    (∃ r, pollBody ProbingState.WaitingReply inner send recv = .ret r) := by
  refine ⟨?_, fun channel => ?_, ⟨pollWaitingReply inner recv, rfl⟩⟩
  · cases st <;> cases send <;> rfl
  · cases send with
    | sent => exact Or.inl rfl
    | full => exact Or.inr ⟨_, rfl⟩
    | disconnected => exact Or.inr ⟨_, rfl⟩

end Mcp3008
